import Mathlib

/-!
A shallow embedding of the `rust-companion` crate (`src/lib.rs`, `src/main.rs`)
and theorems about its supervisor / daemon-loop behaviour.

File contents, file-system effects and process liveness are made explicit:
the PID file is modelled as an optional list of lines, the live process table
as a list of PIDs, and every side effect of `launch` / `bootstrap` /
`check_started` is recorded in an explicit `Effect` trace.
-/

set_option autoImplicit false

namespace RustCompanion

/-- The crate constant `PROGRAM_NAME` from `src/lib.rs`. -/
def PROGRAM_NAME : String := "rust-companion"

/-- `companion_addr` from `src/lib.rs`: the rendezvous address. The environment
variable `RUST_COMPANION` is modelled as an optional string; when it is absent
the function returns the hard-coded UDP address `"[::]:2000"`. -/
def companion_addr (envVar : Option String) : String :=
  match envVar with
  | some addr => addr
  | none => "[::]:2000"

/-- `pid_path` from `src/lib.rs`: the PID file lives at
`<tempdir>/rust-companion.pid`. The system temp directory is a parameter. -/
def pid_path (tmpDir : String) : String :=
  tmpDir ++ "/" ++ PROGRAM_NAME ++ ".pid"

/-- Modelled from the spec: the rendezvous address the specification describes
for the no-environment-variable case — a deterministic path under the system
temp directory derived from the program name (`<tempdir>/rust-companion.sock`).
This definition follows the spec's words and is compared against the source's
`companion_addr` in the C7 theorems. -/
def specCompanionAddr (tmpDir : String) : String :=
  tmpDir ++ "/" ++ PROGRAM_NAME ++ ".sock"

/-- Model of Rust `str::parse::<u32>()`: an optional leading `+`, then at
least one ASCII digit, and the value must fit in 32 bits. -/
def parseU32? (s : String) : Option Nat :=
  let cs :=
    match s.data with
    | '+' :: rest => rest
    | cs => cs
  if cs = [] then none
  else if cs.all (fun c => c.isDigit) then
    let v := cs.foldl (fun a c => a * 10 + (c.toNat - 48)) 0
    if v < 4294967296 then some v else none
  else none

/-- The PIDs recorded in a PID file, one per line, unparsable lines skipped
(`pids.lines().filter_map(|s| s.parse::<u32>().ok())` in `check_started`). -/
def parsePids (fileLines : List String) : List Nat :=
  fileLines.filterMap parseU32?

/-- `check_started` from `src/lib.rs`. The PID file content is an optional
list of lines (`none` = the file cannot be read); `live` is the set of PIDs
present in the live process table. Returns the boolean result together with
the PID file's content after the call: when at least one recorded PID is
live the file is rewritten to exactly the live entries, otherwise the file
is left untouched. -/
def check_started (file : Option (List String)) (live : List Nat) :
    Bool × Option (List String) :=
  match file with
  | none => (false, none)
  | some ls =>
    let pids := parsePids ls
    let new_pids := pids.filter (fun p => live.contains p)
    if new_pids.isEmpty then (false, some ls)
    else (true, some (new_pids.map Nat.repr))

/-- A `Response` as in `src/lib.rs` (`String`, `List`, `Ok`, `NotFound`). -/
inductive Response where
  | String : String → Response
  | List : List String → Response
  | Ok : Response
  | NotFound : Response
deriving DecidableEq

/-- A `Task` as in `src/lib.rs` (`Get`, `Set`, `List`, `Sum`, `Shutdown`). -/
inductive Task where
  | Get : String → Task
  | Set : String → String → Task
  | Sum : List Int → Task
  | List : Task
  | Shutdown : Task
deriving DecidableEq

/-- A `Task` as matched in `src/main.rs` (reply channels embedded; the
channel itself is kept abstract, only the replies sent on it are recorded). -/
inductive TaskU where
  | Get : String → TaskU
  | Set : String → String → TaskU
  | Sum : List Int → TaskU
  | Shutdown : TaskU
deriving DecidableEq

/-- The daemon's in-memory `HashMap<String, String>` storage, modelled as an
association list in insertion order. -/
abbrev Storage := List (String × String)

/-- `HashMap::get`. -/
def hmGet (st : Storage) (k : String) : Option String :=
  (st.find? (fun kv => kv.1 = k)).map (fun kv => kv.2)

/-- `HashMap::insert`: replaces the value of an existing key, otherwise
appends the new binding. -/
def hmInsert (st : Storage) (k v : String) : Storage :=
  if st.any (fun kv => kv.1 = k) then
    st.map (fun kv => if kv.1 = k then (k, v) else kv)
  else st ++ [(k, v)]

/-- `HashMap::keys` (in the model: insertion order). -/
def hmKeys (st : Storage) : List String :=
  st.map (fun kv => kv.1)

/-- One iteration of the dispatch `match` in `launch` (`src/lib.rs`):
given the storage and the received task, returns the new storage, the list
of replies sent back to the request's source address, and whether the loop
continues (`false` exactly for `Shutdown`, which does `break 'outer`).
Note that the `Sum` arm sends no reply (its send is commented out in the
source). -/
def handleTask (st : Storage) (t : Task) : Storage × List Response × Bool :=
  match t with
  | Task.Get key =>
    match hmGet st key with
    | some data => (st, [Response.String data], true)
    | none => (st, [Response.NotFound], true)
  | Task.Set key data => (hmInsert st key data, [Response.Ok], true)
  | Task.List => (st, [Response.List (hmKeys st)], true)
  | Task.Sum _ => (st, [], true)
  | Task.Shutdown => (st, [], false)

/-- One iteration of the dispatch `match` in `main` (`src/main.rs`): the
replies sent on the task's embedded reply channel, and whether the loops
continue. `Get` and `Set` only print; `Sum` replies `Response::NotFound`
(the sum itself is commented out); `Shutdown` breaks the outer loop. -/
def mainHandle (t : TaskU) : List Response × Bool :=
  match t with
  | TaskU.Get _ => ([], true)
  | TaskU.Set _ _ => ([], true)
  | TaskU.Sum _ => ([Response.NotFound], true)
  | TaskU.Shutdown => ([], false)

/-- The daemon loop of `launch` over a finite stream of incoming tasks:
returns the final storage, the concatenated replies, and the tasks left
unprocessed when the loop was broken by `Shutdown`. -/
def runLoop (st : Storage) : List Task → Storage × List Response × List Task
  | [] => (st, [], [])
  | t :: ts =>
    match handleTask st t with
    | (st2, rs, cont) =>
      if cont then
        match runLoop st2 ts with
        | (st3, rs2, rem) => (st3, rs ++ rs2, rem)
      else (st2, rs, ts)

/-- An observable side effect of the supervisor / daemon code: a file write
(path, lines written), a file removal, a socket bind, a reply sent to the
current request's source, or a child-process spawn (executable, argument,
whether stdio is detached to null). -/
inductive Effect where
  | writeFile : String → List String → Effect
  | removeFile : String → Effect
  | bind : String → Effect
  | reply : Response → Effect
  | spawn : String → String → Bool → Effect
deriving DecidableEq

/-- Whether an effect is a reply. -/
def isReply : Effect → Bool
  | Effect.reply _ => true
  | _ => false

/-- Whether an effect removes a file. -/
def isRemoveFile : Effect → Bool
  | Effect.removeFile _ => true
  | _ => false

/-- Whether an effect spawns a child process. -/
def isSpawn : Effect → Bool
  | Effect.spawn _ _ _ => true
  | _ => false

/-- The effect trace of the daemon loop of `launch`: each processed task
contributes the replies it sends; `Shutdown` stops the loop. -/
def loopEffects (st : Storage) : List Task → List Effect
  | [] => []
  | t :: ts =>
    match handleTask st t with
    | (st2, rs, cont) =>
      rs.map Effect.reply ++ (if cont then loopEffects st2 ts else [])

/-- The effect trace of `launch` (`src/lib.rs`): write the daemon's own PID
to the PID file, bind the UDP socket on the rendezvous address, then run the
dispatch loop on empty storage. No stale-file removal occurs, and nothing
happens after the loop breaks. -/
def launchRun (tmpDir : String) (envVar : Option String) (pid : Nat)
    (tasks : List Task) : List Effect :=
  Effect.writeFile (pid_path tmpDir) [Nat.repr pid]
    :: Effect.bind (companion_addr envVar)
    :: loopEffects [] tasks

/-- The content of the file at `path` after running an effect trace,
starting from `content` (`none` = absent). `fs::write` truncates and
replaces; `fs::remove_file` deletes. -/
def fileAfter (path : String) : Option (List String) → List Effect → Option (List String)
  | content, [] => content
  | content, Effect.writeFile p c :: es =>
    fileAfter path (if p = path then some c else content) es
  | content, Effect.removeFile p :: es =>
    fileAfter path (if p = path then none else content) es
  | content, _ :: es => fileAfter path content es

/-- Render a component list as a path string. -/
def renderPath (parts : List String) : String :=
  String.intercalate "/" parts

/-- The component walk of `lockfile` (`src/lib.rs`): copy `OUT_DIR`
components until the previous component was `target` and the current one is
`debug` or `release`, which stops the walk before pushing that component. -/
def lockfileAux : String → List String → List String
  | _, [] => []
  | prev, p :: ps =>
    if prev = "target" ∧ (p = "debug" ∨ p = "release") then []
    else p :: lockfileAux p ps

/-- `lockfile` from `src/lib.rs`: the walked prefix of the `OUT_DIR`
components followed by `companion.lock`. -/
def lockfile (outDirParts : List String) : List String :=
  lockfileAux "" outDirParts ++ ["companion.lock"]

/-- The file writes `check_started` performs: exactly one rewrite of the PID
file when at least one recorded PID is live, none otherwise. -/
def check_started_effects (pidFilePath : String) (file : Option (List String))
    (live : List Nat) : List Effect :=
  match check_started file live with
  | (true, some c) => [Effect.writeFile pidFilePath c]
  | _ => []

/-- `bootstrap` from `src/lib.rs`, as a function of its environment: the temp
directory, the rendezvous environment variable, the current process id, the
PID file content, the live process table, the first command-line argument,
the current executable path (`none` = `current_exe` failed), whether the
child spawn succeeds, the `OUT_DIR` components, and the task stream an
inline daemon would serve. Returns the `Result` value and the effect
trace. -/
def bootstrap (tmpDir : String) (envVar : Option String) (pid : Nat)
    (pidFile : Option (List String)) (live : List Nat)
    (arg1 : Option String) (exe : Option String) (spawnOk : Bool)
    (outDirParts : List String) (tasks : List Task) :
    Except Unit (List String) × List Effect :=
  let lk := lockfile outDirParts
  let ce := check_started_effects (pid_path tmpDir) pidFile live
  if (check_started pidFile live).1 then (Except.ok lk, ce)
  else
    match arg1 with
    | some a =>
      if a = "-d" then (Except.ok lk, ce ++ launchRun tmpDir envVar pid tasks)
      else (Except.ok lk, ce)
    | none =>
      match exe with
      | some exePath =>
        if spawnOk then
          (Except.ok lk,
            ce ++ [Effect.spawn exePath "-d" true,
                   Effect.writeFile (renderPath lk) [exePath]])
        else (Except.error (), ce)
      | none => (Except.ok lk, ce)

/-- Modelled from the spec: the error type of the typed channel's `recv`
(the `Sender`/`Receiver` channel layer is absent from this repository's
sources; only its callers in `src/main.rs` and `examples/sender.rs` appear).
Per the spec, peer close and malformed envelopes surface as error values. -/
inductive RecvError where
  | closed : RecvError
  | malformed : RecvError
deriving DecidableEq

/-- Modelled from the spec: the wire-level message envelope
`{ payload_length, descriptor_count, payload, descriptors }`. -/
structure Envelope where
  payload_length : Nat
  descriptor_count : Nat
  payload : List Nat
  descriptors : List Nat
deriving DecidableEq

/-- Modelled from the spec: an envelope is well framed when its header
counts match the payload and descriptor list it carries. -/
def wellFramed (e : Envelope) : Bool :=
  e.payload.length == e.payload_length && e.descriptors.length == e.descriptor_count

/-- Modelled from the spec: `Receiver::recv`. The input is `none` when the
peer closed before a complete envelope arrived; otherwise the received
envelope is decoded by the message type's decoder (which consumes the
payload bytes and the received descriptors). Peer close and malformed
envelopes yield `RecvError` values; the function is total, so no failure is
a panic or silently swallowed. -/
def recvResult {α : Type} (decode : List Nat → List Nat → Option α)
    (input : Option Envelope) : Except RecvError α :=
  match input with
  | none => Except.error RecvError.closed
  | some e =>
    if wellFramed e then
      match decode e.payload e.descriptors with
      | some v => Except.ok v
      | none => Except.error RecvError.malformed
    else Except.error RecvError.malformed

/-! ## Helper lemmas -/

/-- Every effect the dispatch loop emits is a reply. -/
theorem loopEffects_mem_reply (ts : List Task) :
    ∀ (st : Storage), ∀ e ∈ loopEffects st ts, isReply e = true := by
  induction ts with
  | nil => intro st e he; simp [loopEffects] at he
  | cons t ts ih =>
    intro st e he
    simp only [loopEffects] at he
    rcases hht : handleTask st t with ⟨st2, rs, cont⟩
    rw [hht] at he
    simp only [List.mem_append, List.mem_map] at he
    rcases he with ⟨r, _, rfl⟩ | he
    · rfl
    · cases cont with
      | false => simp at he
      | true => exact ih st2 e (by simpa using he)

/-- A reply effect is not a file removal. -/
theorem isReply_not_removeFile (e : Effect) (h : isReply e = true) :
    isRemoveFile e = false := by
  cases e <;> simp [isReply, isRemoveFile] at h ⊢

/-- The dispatch loop removes no file. -/
theorem loopEffects_no_removeFile (ts : List Task) (st : Storage) :
    (loopEffects st ts).all (fun e => !(isRemoveFile e)) = true := by
  rw [List.all_eq_true]
  intro e he
  rw [isReply_not_removeFile e (loopEffects_mem_reply ts st e he)]
  rfl

/-- A trace made of replies leaves every file unchanged. -/
theorem fileAfter_replies (path : String) (es : List Effect)
    (h : ∀ e ∈ es, isReply e = true) :
    ∀ content, fileAfter path content es = content := by
  induction es with
  | nil => intro c; rfl
  | cons e es ih =>
    intro c
    have hih := ih (fun x hx => h x (List.mem_cons_of_mem e hx))
    have he := h e (List.mem_cons_self e es)
    cases e with
    | writeFile p c2 => simp [isReply] at he
    | removeFile p => simp [isReply] at he
    | bind a => exact hih c
    | reply r => exact hih c
    | spawn a b d => exact hih c

/-- When no recorded PID is live, `check_started` writes nothing. -/
theorem check_started_effects_of_not (pidFilePath : String)
    (file : Option (List String)) (live : List Nat)
    (h : (check_started file live).1 = false) :
    check_started_effects pidFilePath file live = [] := by
  rcases hc : check_started file live with ⟨b, f⟩
  have hb : b = false := by rw [hc] at h; exact h
  subst hb
  unfold check_started_effects
  rw [hc]

/-- `check_started` never spawns a process. -/
theorem check_started_effects_no_spawn (pidFilePath : String)
    (file : Option (List String)) (live : List Nat) :
    (check_started_effects pidFilePath file live).all
      (fun e => !(isSpawn e)) = true := by
  unfold check_started_effects
  rcases check_started file live with ⟨b, f⟩
  cases b <;> cases f <;> simp [isSpawn]

/-! ## Claim theorems -/

/-- C1 counterexample: a PID file whose only recorded PID (`7`) is dead is
left completely unchanged by `check_started` — it is not rewritten to "only
the live entries" (which would be none): the dead entry survives the call. -/
theorem check_started_dead_only_cex :
    check_started (some ["7"]) [] = (false, some ["7"])
    ∧ parsePids ["7"] = [7]
    ∧ ¬ (∀ p ∈ parsePids ["7"], p ∈ ([] : List Nat)) := by decide

/-- C1 (amended): `check_started` returns `true` iff at least one recorded
PID is live; when it returns `true` it rewrites the PID file to exactly the
live recorded entries (in file order); when no recorded PID is live it
returns `false` and leaves the file content unchanged. -/
theorem check_started_spec (file : Option (List String)) (live : List Nat) :
    ((check_started file live).1 = true
        ↔ ∃ p ∈ parsePids (file.getD []), live.contains p = true)
    ∧ ((check_started file live).1 = true →
        (check_started file live).2
          = some (((parsePids (file.getD [])).filter
              (fun p => live.contains p)).map Nat.repr))
    ∧ ((check_started file live).1 = false →
        (check_started file live).2 = file) := by
  rcases file with _ | ls
  · refine ⟨?_, ?_, fun _ => rfl⟩
    · simp [check_started, parsePids]
    · intro h; simp [check_started] at h
  · by_cases hne :
      ((parsePids ls).filter (fun p => live.contains p)).isEmpty = true
    · have hnil : (parsePids ls).filter (fun p => live.contains p) = [] :=
        List.isEmpty_iff.mp hne
      have hforall := List.filter_eq_nil_iff.mp hnil
      refine ⟨?_, ?_, fun _ => ?_⟩
      · simp only [check_started, hne, if_true, Option.getD_some]
        constructor
        · intro h; exact absurd h (by simp)
        · rintro ⟨p, hp, hlp⟩; exact absurd hlp (by simpa using hforall p hp)
      · intro h
        simp only [check_started, hne, if_true] at h
        exact absurd h (by simp)
      · simp only [check_started, hne, if_true]
    · have hne' :
          ((parsePids ls).filter (fun p => live.contains p)).isEmpty = false := by
        cases hie : ((parsePids ls).filter (fun p => live.contains p)).isEmpty
        · rfl
        · exact absurd hie hne
      have hnil' : (parsePids ls).filter (fun p => live.contains p) ≠ [] := by
        intro hn
        rw [hn] at hne'
        simp at hne'
      have hmem : ∃ p ∈ parsePids ls, live.contains p = true := by
        rcases List.exists_mem_of_ne_nil _ hnil' with ⟨p, hp⟩
        exact ⟨p, (List.mem_filter.mp hp).1, (List.mem_filter.mp hp).2⟩
      refine ⟨?_, fun _ => ?_, fun h => ?_⟩
      · simp only [check_started, hne', Bool.false_eq_true, if_false,
          Option.getD_some]
        exact ⟨fun _ => hmem, fun _ => trivial⟩
      · simp only [check_started, hne', Bool.false_eq_true, if_false,
          Option.getD_some]
      · simp only [check_started, hne', Bool.false_eq_true, if_false] at h
        exact absurd h (by simp)

/-- C1 witness: on the spec's own example — one live PID (`7`) and one dead
PID (`999`) — `check_started` returns `true` and rewrites the file to retain
only the live entry. -/
theorem check_started_spec_witness :
    (check_started (some ["7", "999"]) [7]).1 = true
    ∧ (check_started (some ["7", "999"]) [7]).2 = some ["7"] := by
  have h := check_started_spec (some ["7", "999"]) [7]
  have h1 : (check_started (some ["7", "999"]) [7]).1 = true :=
    h.1.mpr ⟨7, by decide, by decide⟩
  exact ⟨h1, (h.2.1 h1).trans (by decide)⟩

/-- C2: evaluating the dispatch at the failing input. In the datagram
binding (`src/lib.rs`) `Get` (also on a "not found" outcome), `Set` and
`List` each send exactly one reply, but `Sum` sends none (its send is
commented out); in the Unix-socket binding (`src/main.rs`) `Get` and `Set`
send none. The claim's "exactly one reply for every non-Shutdown variant"
fails at `Task::Sum`. -/
theorem dispatch_reply_counts :
    (handleTask [] (Task.Get "k")).2.1.length = 1
    ∧ (handleTask [] (Task.Set "k" "v")).2.1.length = 1
    ∧ (handleTask [] Task.List).2.1.length = 1
    ∧ (handleTask [] (Task.Sum [23, 42])).2.1.length = 0
    ∧ (mainHandle (TaskU.Get "k")).1.length = 0
    ∧ (mainHandle (TaskU.Set "k" "v")).1.length = 0 := by decide

/-- C3 counterexample: a daemon run that receives `Task::Shutdown` performs
exactly a PID-file write and a bind — its whole effect trace contains no
file removal, so the socket path file is not unlinked on exit. -/
theorem shutdown_no_unlink_cex :
    launchRun "/tmp" none 42 [Task.Shutdown]
      = [Effect.writeFile "/tmp/rust-companion.pid" ["42"],
         Effect.bind "[::]:2000"]
    ∧ (launchRun "/tmp" none 42 [Task.Shutdown]).all
        (fun e => !(isRemoveFile e)) = true := by decide

/-- C3 (amended): receiving `Task::Shutdown` breaks the daemon loop — no
reply is sent for it, the remaining requests are left unprocessed and the
loop emits no further effects — but the daemon does not remove the socket
path file on exit: no run of `launch` ever emits a file removal. -/
theorem shutdown_breaks_loop_spec (st : Storage) (ts : List Task)
    (tmp : String) (envVar : Option String) (pid : Nat) (tasks : List Task) :
    runLoop st (Task.Shutdown :: ts) = (st, [], ts)
    ∧ loopEffects st (Task.Shutdown :: ts) = []
    ∧ (launchRun tmp envVar pid tasks).all (fun e => !(isRemoveFile e)) = true := by
  refine ⟨rfl, rfl, ?_⟩
  simp only [launchRun, List.all_cons]
  rw [loopEffects_no_removeFile tasks []]
  rfl

/-- C4: evaluating the daemon at `Sum([23, 42])`: the datagram binding
(`src/lib.rs`) sends no reply at all, and the Unix-socket binding
(`src/main.rs`) replies `Response::NotFound` on the embedded channel — in
neither case the sum `65` (which the `Response` type cannot even carry). -/
theorem sum_dispatch_eval :
    handleTask [] (Task.Sum [23, 42]) = ([], [], true)
    ∧ mainHandle (TaskU.Sum [23, 42]) = ([Response.NotFound], true)
    ∧ List.sum [(23 : Int), 42] = 65 := by decide

/-- C5 counterexample: the complete entry trace of `launch` is a PID-file
write followed directly by the bind — no stale socket-path file is removed
before (or after) binding. -/
theorem launch_entry_cex :
    launchRun "/tmp" none 42 []
      = [Effect.writeFile "/tmp/rust-companion.pid" ["42"],
         Effect.bind "[::]:2000"]
    ∧ (launchRun "/tmp" none 42 []).all (fun e => !(isRemoveFile e)) = true := by
  decide

/-- C5 (amended): on entry `launch` first writes its own PID to the PID file
and then binds the socket on the rendezvous address; it removes no file at
any point. -/
theorem launch_entry_spec (tmp : String) (envVar : Option String) (pid : Nat)
    (tasks : List Task) :
    (launchRun tmp envVar pid tasks).take 2
      = [Effect.writeFile (pid_path tmp) [Nat.repr pid],
         Effect.bind (companion_addr envVar)]
    ∧ (launchRun tmp envVar pid tasks).all (fun e => !(isRemoveFile e)) = true := by
  refine ⟨rfl, ?_⟩
  simp only [launchRun, List.all_cons]
  rw [loopEffects_no_removeFile tasks []]
  rfl

/-- C6: `recv` surfaces peer close and malformed envelopes as explicit
`RecvError` results — whenever the peer closed before a complete envelope
arrived, or the envelope's framing is inconsistent, or its payload does not
decode, `recv` returns an `Except.error`. -/
theorem recv_surfaces_errors {α : Type} (decode : List Nat → List Nat → Option α)
    (input : Option Envelope)
    (h : input = none ∨ ∃ e, input = some e ∧
        (wellFramed e = false ∨ decode e.payload e.descriptors = none)) :
    ∃ err, recvResult decode input = Except.error err := by
  rcases h with rfl | ⟨e, rfl, he⟩
  · exact ⟨RecvError.closed, rfl⟩
  · by_cases hw : wellFramed e = true
    · rcases he with hf | hd
      · rw [hw] at hf; exact absurd hf (by decide)
      · exact ⟨RecvError.malformed, by simp [recvResult, hw, hd]⟩
    · have hw' : wellFramed e = false := by
        cases hwe : wellFramed e
        · rfl
        · exact absurd hwe hw
      exact ⟨RecvError.malformed, by simp [recvResult, hw']⟩

/-- C6 witness: a closed peer yields a `RecvError` on a concrete channel. -/
theorem recv_surfaces_errors_witness :
    ∃ err, recvResult (fun _ _ => (none : Option Nat)) none
      = Except.error err :=
  recv_surfaces_errors (fun _ _ => none) none (Or.inl rfl)

/-- C7 counterexample: with the environment variable absent, the source's
`companion_addr` returns the fixed UDP address `"[::]:2000"`, which is not
the temp-directory socket path the spec describes. -/
theorem companion_addr_cex :
    companion_addr none = "[::]:2000"
    ∧ companion_addr none ≠ specCompanionAddr "/tmp" := by decide

/-- C7 (amended): when the environment variable is absent `companion_addr`
returns the fixed address `"[::]:2000"` — for no temp directory is this the
spec's derived socket path — and when the variable is set its value is
returned unchanged. -/
theorem companion_addr_spec (tmpDir a : String) :
    companion_addr none = "[::]:2000"
    ∧ companion_addr (some a) = a
    ∧ companion_addr none ≠ specCompanionAddr tmpDir := by
  refine ⟨rfl, rfl, ?_⟩
  intro h
  have hlen := congrArg String.length h
  rw [show (companion_addr none).length = 9 by decide] at hlen
  simp only [specCompanionAddr, PROGRAM_NAME, String.length_append] at hlen
  rw [show ("/" : String).length = 1 by decide,
      show ("rust-companion" : String).length = 14 by decide,
      show (".sock" : String).length = 5 by decide] at hlen
  omega

/-- C8 counterexample: the liveness check reports "not running" and the
first argument is `"-x"` — the process was not invoked with the daemon flag
`-d` — yet `bootstrap` performs no effect at all: no spawn, no lockfile
write. Only the no-first-argument case re-executes. -/
theorem bootstrap_other_arg_cex :
    bootstrap "/tmp" none 1 none [] (some "-x") (some "/x/exe") true ["o"] []
      = (Except.ok ["o", "companion.lock"], [])
    ∧ (some "-x" : Option String) ≠ some "-d"
    ∧ (check_started (none : Option (List String)) ([] : List Nat)).1 = false :=
  ⟨rfl, by decide, rfl⟩

/-- C8 (amended): when the liveness check reports no daemon running and the
process was invoked with no first argument at all, `bootstrap` spawns the
current executable with the `-d` flag and stdio detached to null, and then
writes the executable's path into the lockfile. -/
theorem bootstrap_spawn_spec (tmp : String) (envVar : Option String)
    (pid : Nat) (pidFile : Option (List String)) (live : List Nat)
    (e0 : String) (outDirParts : List String) (tasks : List Task)
    (h : (check_started pidFile live).1 = false) :
    bootstrap tmp envVar pid pidFile live none (some e0) true outDirParts tasks
      = (Except.ok (lockfile outDirParts),
         [Effect.spawn e0 "-d" true,
          Effect.writeFile (renderPath (lockfile outDirParts)) [e0]]) := by
  have hce := check_started_effects_of_not (pid_path tmp) pidFile live h
  simp [bootstrap, h, hce]

/-- C8 witness: a concrete not-running, no-argument bootstrap spawns the
daemon and records the executable path in the lockfile. -/
theorem bootstrap_spawn_spec_witness :
    bootstrap "/tmp" none 1 none [] none (some "/x/exe") true ["o"] []
      = (Except.ok ["o", "companion.lock"],
         [Effect.spawn "/x/exe" "-d" true,
          Effect.writeFile "o/companion.lock" ["/x/exe"]]) :=
  (bootstrap_spawn_spec "/tmp" none 1 none [] "/x/exe" ["o"] [] rfl).trans rfl

/-- C9: whatever the PID file previously contained, after `launch`'s initial
write (and for the rest of the daemon run, which never writes a file again)
the PID file holds exactly one entry: the daemon's own PID. -/
theorem launch_overwrites_pidfile (tmp : String) (envVar : Option String)
    (pid : Nat) (prior : Option (List String)) (tasks : List Task) :
    fileAfter (pid_path tmp) prior (launchRun tmp envVar pid tasks)
      = some [Nat.repr pid]
    ∧ [Nat.repr pid].length = 1 := by
  refine ⟨?_, rfl⟩
  have hstep : fileAfter (pid_path tmp) prior (launchRun tmp envVar pid tasks)
      = fileAfter (pid_path tmp) (some [Nat.repr pid]) (loopEffects [] tasks) := by
    simp [launchRun, fileAfter]
  rw [hstep]
  exact fileAfter_replies (pid_path tmp) (loopEffects [] tasks)
    (loopEffects_mem_reply tasks []) (some [Nat.repr pid])

/-- C10 counterexample: when a daemon is already running (`check_started`
true), `bootstrap` does return `Ok` with the lockfile path and spawns
nothing, but it does perform a file write: the liveness check rewrites the
PID file. The claim's "no file writes" is false. -/
theorem bootstrap_running_write_cex :
    bootstrap "/tmp" none 1 (some ["7"]) [7] none (some "/x/exe") true ["o"] []
      = (Except.ok ["o", "companion.lock"],
         [Effect.writeFile "/tmp/rust-companion.pid" ["7"]])
    ∧ [Effect.writeFile "/tmp/rust-companion.pid" ["7"]] ≠ ([] : List Effect) :=
  ⟨rfl, by decide⟩

/-- C10 (amended): `bootstrap` returns `Ok` with the lockfile path when a
daemon is already running — spawning nothing, its only effects being the
liveness check's PID-file rewrite — and also when it successfully spawns a
new daemon; it returns `Err` exactly when the check reported not running,
no first argument was given, the executable path was obtained, and spawning
the child failed. -/
theorem bootstrap_result_spec (tmp : String) (envVar : Option String)
    (pid : Nat) (pidFile : Option (List String)) (live : List Nat)
    (arg1 : Option String) (exe : Option String) (spawnOk : Bool)
    (outDirParts : List String) (tasks : List Task) :
    ((check_started pidFile live).1 = true →
        bootstrap tmp envVar pid pidFile live arg1 exe spawnOk outDirParts tasks
          = (Except.ok (lockfile outDirParts),
             check_started_effects (pid_path tmp) pidFile live)
        ∧ (check_started_effects (pid_path tmp) pidFile live).all
            (fun e => !(isSpawn e)) = true)
    ∧ ((check_started pidFile live).1 = false → arg1 = none → spawnOk = true →
        ∀ e0, exe = some e0 →
        bootstrap tmp envVar pid pidFile live arg1 exe spawnOk outDirParts tasks
          = (Except.ok (lockfile outDirParts),
             [Effect.spawn e0 "-d" true,
              Effect.writeFile (renderPath (lockfile outDirParts)) [e0]]))
    ∧ ((bootstrap tmp envVar pid pidFile live arg1 exe spawnOk outDirParts tasks).1
          = Except.error ()
        ↔ ((check_started pidFile live).1 = false ∧ arg1 = none
            ∧ exe ≠ none ∧ spawnOk = false)) := by
  refine ⟨?_, ?_, ?_⟩
  · intro hs
    exact ⟨by simp [bootstrap, hs], check_started_effects_no_spawn _ _ _⟩
  · rintro hs rfl rfl e0 rfl
    have hce := check_started_effects_of_not (pid_path tmp) pidFile live hs
    simp [bootstrap, hs, hce]
  · by_cases hs : (check_started pidFile live).1 = true
    · simp [bootstrap, hs]
    · have hsf : (check_started pidFile live).1 = false := by
        cases hb : (check_started pidFile live).1
        · rfl
        · exact absurd hb hs
      rcases arg1 with _ | a
      · rcases exe with _ | e0
        · simp [bootstrap, hsf]
        · cases spawnOk
          · simp [bootstrap, hsf]
          · simp [bootstrap, hsf]
      · by_cases ha : a = "-d" <;> simp [bootstrap, hsf, ha]

/-- C10 witness: a concrete failing spawn makes `bootstrap` return `Err`. -/
theorem bootstrap_result_spec_witness :
    (bootstrap "/tmp" none 1 none [] none (some "/x/exe") false [] []).1
      = Except.error () :=
  (bootstrap_result_spec "/tmp" none 1 none [] none (some "/x/exe")
    false [] []).2.2.mpr ⟨rfl, rfl, by decide, rfl⟩

end RustCompanion
